import Mathlib

/-!
Verification of the AgriGrow client-side query controller (src/file.js).

The JavaScript source is shallowly embedded: JS numbers are modelled as
rationals, JS strings as `String`/`List Char`, the browser collaborators
(map widget, DOM, network) as explicit inputs and result values.  The
drawing of `Math.random()` is modelled by an explicit record of draws,
each assumed to lie in the half-open interval of `Math.random()`.
-/

/-! ## Geofence tests

Source line 149 (click handler): `lat < 23.69 || lat > 36.98 || lon < 60.87 || lon > 75.85`.
Source line 199 (searchLocation): `lat >= 23.69 && lat <= 36.98 && lon >= 60.87 && lon <= 75.85`.
-/

def clickOutOfBounds (lat lon : ℚ) : Bool :=
  decide (lat < 23.69) || decide (lat > 36.98) || decide (lon < 60.87) || decide (lon > 75.85)

def searchInBounds (lat lon : ℚ) : Bool :=
  decide (lat ≥ 23.69) && decide (lat ≤ 36.98) && decide (lon ≥ 60.87) && decide (lon ≤ 75.85)

/-! ## Data model of the analysis result (source lines 305-346) -/

structure LocationInfo where
  latitude : ℚ
  longitude : ℚ
  region : String
deriving DecidableEq, Repr

structure Weather where
  temperature : ℚ
  humidity : ℚ
  rainfall : ℚ
  wind_speed : ℚ
  date : String
deriving DecidableEq, Repr

structure Soil where
  ph : ℚ
  organic_matter : ℚ
  nitrogen : ℚ
  phosphorus : ℚ
  potassium : ℚ
  soil_type : String
deriving DecidableEq, Repr

structure CropRecommendation where
  crop_name : String
  suitability_score : ℚ
  irrigation_need : ℚ
  fertilizer_npk : String
  season : String
  planting_months : List String
deriving DecidableEq, Repr

/-- The analysis payload.  `crop_recommendations` is optional because the
    remote payload may omit the field (line 246 guards `recommendations &&`);
    the synthesizer always supplies it. -/
structure AnalysisResult where
  location : LocationInfo
  weather : Weather
  soil : Soil
  crop_recommendations : Option (List CropRecommendation)
deriving DecidableEq, Repr

/-- One value per `Math.random()` call in `createDemoData`, in source order
    (lines 313-341).  Each is assumed to lie in `Math.random()`s range `[0,1)`
    where a theorem needs it. -/
structure RandomDraws where
  temp : ℚ
  hum : ℚ
  rain : ℚ
  wind : ℚ
  ph : ℚ
  om : ℚ
  nit : ℚ
  phos : ℚ
  pot : ℚ
  wheat : ℚ
  rice : ℚ
deriving DecidableEq, Repr

/-- `createDemoData(lat, lon)`, source lines 305-346.  `now` stands for
    `new Date().toISOString()`. -/
def createDemoData (lat lon : ℚ) (g : RandomDraws) (now : String) : AnalysisResult :=
  { location :=
      { latitude := lat
        longitude := lon
        region := if lat > 31 then "Punjab" else if lat > 27 then "Sindh" else "Balochistan" }
    weather :=
      { temperature := 25 + g.temp * 15
        humidity := 40 + g.hum * 40
        rainfall := g.rain * 10
        wind_speed := 5 + g.wind * 15
        date := now }
    soil :=
      { ph := 6.5 + g.ph * 2
        organic_matter := 1 + g.om * 2
        nitrogen := 0.02 + g.nit * 0.05
        phosphorus := 8 + g.phos * 15
        potassium := 100 + g.pot * 150
        soil_type := "Alluvial" }
    crop_recommendations := some
      [ { crop_name := "Wheat"
          suitability_score := 7 + g.wheat * 2
          irrigation_need := 450
          fertilizer_npk := "120-60-60"
          season := "Rabi"
          planting_months := ["November", "December"] }
      , { crop_name := "Rice"
          suitability_score := 6 + g.rice * 2
          irrigation_need := 1200
          fertilizer_npk := "120-90-60"
          season := "Kharif"
          planting_months := ["May", "June"] } ] }

/-! ## Analysis client (click handler, source lines 142-185)

The network is modelled as an explicit outcome: either the `fetch` or
`response.json()` call threw (`netError`, also covering a payload whose
shape breaks the handler body, since that too is caught by the same
`catch`), or a response arrived with its `ok` flag and an envelope that
parsed (`some`) or did not (`none`). -/

structure Envelope where
  cached : Bool
  data : AnalysisResult
deriving DecidableEq, Repr

inductive FetchOutcome where
  | netError : FetchOutcome
  | response (ok : Bool) (body : Option Envelope) : FetchOutcome
deriving DecidableEq, Repr

/-- A transport failure, a non-2xx status, or a malformed envelope: every
    path that ends in the `catch` block of lines 179-184. -/
def isFailureOutcome : FetchOutcome → Prop
  | FetchOutcome.netError => True
  | FetchOutcome.response ok body => ok = false ∨ body = none

instance : DecidablePred isFailureOutcome := by
  intro f
  cases f with
  | netError => exact isTrue trivial
  | response ok body => exact inferInstanceAs (Decidable (ok = false ∨ body = none))

/-- The try/catch of lines 159-184: on success the payload and its server
    `cached` flag verbatim; on any failure `(createDemoData lat lon, false)`
    (lines 181-182). -/
def fetchAnalysis (lat lon : ℚ) (f : FetchOutcome) (g : RandomDraws) (now : String) :
    AnalysisResult × Bool :=
  match f with
  | FetchOutcome.netError => (createDemoData lat lon g now, false)
  | FetchOutcome.response ok body =>
    if ok then
      match body with
      | some env => (env.data, env.cached)
      | none => (createDemoData lat lon g now, false)
    else (createDemoData lat lon g now, false)

def boundsAlertMessage : String := "Please click within Pakistan boundaries!"

inductive ClickResult where
  | boundsAlert (msg : String) : ClickResult
  | popup (data : AnalysisResult) (cached : Bool) : ClickResult
deriving DecidableEq, Repr

/-- The whole click handler, source lines 142-185: geofence gate (lines
    149-152) then fetch/fallback, the popup showing the result and its
    cache flag. -/
def handleClick (lat lon : ℚ) (f : FetchOutcome) (g : RandomDraws) (now : String) : ClickResult :=
  if clickOutOfBounds lat lon then ClickResult.boundsAlert boundsAlertMessage
  else ClickResult.popup (fetchAnalysis lat lon f g now).1 (fetchAnalysis lat lon f g now).2

/-! ## Theorems for claims C1, C2, C3, C7 -/

/-- C2: `searchInBounds` (the explicit-coordinate search test) is true exactly
    on the closed box `[23.69, 36.98] x [60.87, 75.85]`, false exactly when a
    value is strictly outside its range, the click-handler geofence test is its
    boolean negation, and the boundary corners are accepted. -/
theorem C2_geofence_closed_box (lat lon : ℚ) :
    (searchInBounds lat lon = true ↔
      (23.69 ≤ lat ∧ lat ≤ 36.98 ∧ 60.87 ≤ lon ∧ lon ≤ 75.85)) ∧
    (searchInBounds lat lon = false ↔
      (lat < 23.69 ∨ 36.98 < lat ∨ lon < 60.87 ∨ 75.85 < lon)) ∧
    clickOutOfBounds lat lon = ! searchInBounds lat lon ∧
    searchInBounds 23.69 60.87 = true ∧ searchInBounds 36.98 75.85 = true := by
  have h1 : searchInBounds lat lon = true ↔
      (23.69 ≤ lat ∧ lat ≤ 36.98 ∧ 60.87 ≤ lon ∧ lon ≤ 75.85) := by
    simp only [searchInBounds, Bool.and_eq_true, decide_eq_true_eq, ge_iff_le, and_assoc]
  have h2 : searchInBounds lat lon = false ↔
      (lat < 23.69 ∨ 36.98 < lat ∨ lon < 60.87 ∨ 75.85 < lon) := by
    rw [← Bool.not_eq_true, h1]
    simp only [not_and_or, not_le]
  have h3 : clickOutOfBounds lat lon = ! searchInBounds lat lon := by
    cases hb : searchInBounds lat lon
    · have hd := h2.mp hb
      simp only [Bool.not_false, clickOutOfBounds, Bool.or_eq_true, decide_eq_true_eq,
        gt_iff_lt]
      tauto
    · have hc := h1.mp hb
      simp only [Bool.not_true, ← Bool.not_eq_true, clickOutOfBounds, Bool.or_eq_true,
        decide_eq_true_eq, gt_iff_lt, not_or, not_lt]
      tauto
  exact ⟨h1, h2, h3, by norm_num [searchInBounds], by norm_num [searchInBounds]⟩

/-- C7: the `region` of the synthesized result depends on latitude alone,
    through the fixed thresholds of line 310. -/
theorem C7_region_from_latitude (lat lon lon' : ℚ) (g g' : RandomDraws) (now now' : String) :
    (createDemoData lat lon g now).location.region =
      (if lat > 31 then "Punjab" else if lat > 27 then "Sindh" else "Balochistan") ∧
    (createDemoData lat lon g now).location.region =
      (createDemoData lat lon' g' now').location.region :=
  ⟨rfl, rfl⟩

/-- C3: for any coordinate and any random draws in `Math.random()`s range,
    `createDemoData` returns exactly two crop recommendations, Wheat then
    Rice, with the fixed agronomic constants, and suitability scores inside
    the documented bands `[7,9]` and `[6,8]`. -/
theorem C3_synthesizer_two_crops (lat lon : ℚ) (g : RandomDraws) (now : String)
    (hw0 : 0 ≤ g.wheat) (hw1 : g.wheat < 1) (hr0 : 0 ≤ g.rice) (hr1 : g.rice < 1) :
    ∃ w r, (createDemoData lat lon g now).crop_recommendations = some [w, r] ∧
      w.crop_name = "Wheat" ∧ w.irrigation_need = 450 ∧
      w.fertilizer_npk = "120-60-60" ∧ w.season = "Rabi" ∧
      w.planting_months = ["November", "December"] ∧
      r.crop_name = "Rice" ∧ r.irrigation_need = 1200 ∧
      r.fertilizer_npk = "120-90-60" ∧ r.season = "Kharif" ∧
      r.planting_months = ["May", "June"] ∧
      7 ≤ w.suitability_score ∧ w.suitability_score ≤ 9 ∧
      6 ≤ r.suitability_score ∧ r.suitability_score ≤ 8 := by
  refine ⟨_, _, rfl, rfl, rfl, rfl, rfl, rfl, rfl, rfl, rfl, rfl, rfl, ?_, ?_, ?_, ?_⟩
  · show (7:ℚ) ≤ 7 + g.wheat * 2
    linarith
  · show (7:ℚ) + g.wheat * 2 ≤ 9
    linarith
  · show (6:ℚ) ≤ 6 + g.rice * 2
    linarith
  · show (6:ℚ) + g.rice * 2 ≤ 8
    linarith

theorem C3_synthesizer_two_crops_witness :
    (0:ℚ) ≤ 0 ∧ (0:ℚ) < 1 ∧
    (∃ w r,
      (createDemoData 30 70 ⟨0,0,0,0,0,0,0,0,0,0,0⟩ "now").crop_recommendations = some [w, r] ∧
      w.crop_name = "Wheat" ∧ w.irrigation_need = 450 ∧
      w.fertilizer_npk = "120-60-60" ∧ w.season = "Rabi" ∧
      w.planting_months = ["November", "December"] ∧
      r.crop_name = "Rice" ∧ r.irrigation_need = 1200 ∧
      r.fertilizer_npk = "120-90-60" ∧ r.season = "Kharif" ∧
      r.planting_months = ["May", "June"] ∧
      7 ≤ w.suitability_score ∧ w.suitability_score ≤ 9 ∧
      6 ≤ r.suitability_score ∧ r.suitability_score ≤ 8) :=
  ⟨le_refl 0, by norm_num,
    C3_synthesizer_two_crops 30 70 ⟨0,0,0,0,0,0,0,0,0,0,0⟩ "now"
      (le_refl 0) (by norm_num) (le_refl 0) (by norm_num)⟩

/-- C1: for a geofence-valid coordinate, every failure outcome (transport
    error, non-2xx, malformed envelope) is absorbed: the client returns the
    synthesized data paired with `cached = false`, and the click handler
    shows exactly that popup, never an error. -/
theorem C1_failure_falls_back (lat lon : ℚ) (f : FetchOutcome) (g : RandomDraws) (now : String)
    (hin : clickOutOfBounds lat lon = false) (hf : isFailureOutcome f) :
    fetchAnalysis lat lon f g now = (createDemoData lat lon g now, false) ∧
    handleClick lat lon f g now =
      ClickResult.popup (createDemoData lat lon g now) false := by
  have hfetch : fetchAnalysis lat lon f g now = (createDemoData lat lon g now, false) := by
    cases f with
    | netError => rfl
    | response ok body =>
      rcases hf with hok | hbody
      · subst hok; rfl
      · subst hbody
        cases ok <;> rfl
  refine ⟨hfetch, ?_⟩
  simp [handleClick, hin, hfetch]

theorem C1_failure_falls_back_witness :
    clickOutOfBounds 30 70 = false ∧ isFailureOutcome FetchOutcome.netError ∧
    handleClick 30 70 FetchOutcome.netError ⟨0,0,0,0,0,0,0,0,0,0,0⟩ "now" =
      ClickResult.popup (createDemoData 30 70 ⟨0,0,0,0,0,0,0,0,0,0,0⟩ "now") false :=
  ⟨by norm_num [clickOutOfBounds], trivial,
    (C1_failure_falls_back 30 70 FetchOutcome.netError ⟨0,0,0,0,0,0,0,0,0,0,0⟩ "now"
      (by norm_num [clickOutOfBounds]) trivial).2⟩

/-! ## Report presenter (createPopupContent, source lines 235-303)

Only the crop section has logic: line 246 guards
`recommendations && recommendations.length > 0`, line 260 supplies the
empty-state placeholder.  One `CropEntry` is produced per recommendation
(lines 247-258). -/

structure CropEntry where
  title : String
  score : ℚ
  irrigation : ℚ
  npk : String
  season : String
  months : List String
deriving DecidableEq, Repr

inductive CropsView where
  | entries (l : List CropEntry) : CropsView
  | placeholder (msg : String) : CropsView
deriving DecidableEq, Repr

def noCropsPlaceholder : String := "No suitable crops found for this location."

def renderCrop (c : CropRecommendation) : CropEntry :=
  { title := c.crop_name
    score := c.suitability_score
    irrigation := c.irrigation_need
    npk := c.fertilizer_npk
    season := c.season
    months := c.planting_months }

def cropsSection (recs : Option (List CropRecommendation)) : CropsView :=
  match recs with
  | some l => if l.length > 0 then CropsView.entries (l.map renderCrop)
              else CropsView.placeholder noCropsPlaceholder
  | none => CropsView.placeholder noCropsPlaceholder

/-- The popup view model: the cache badge of lines 241-243 and the crop
    section of lines 245-261. -/
structure ReportViewModel where
  cachedBadge : Bool
  region : String
  crops : CropsView
deriving DecidableEq, Repr

def createPopupContent (d : AnalysisResult) (isCached : Bool) : ReportViewModel :=
  { cachedBadge := isCached
    region := d.location.region
    crops := cropsSection d.crop_recommendations }

/-- C6: an empty or absent crop list yields the designated empty-state
    placeholder, and a non-empty list yields one rendered entry per
    recommendation. -/
theorem C6_empty_crops_placeholder (cached : Bool) (d : AnalysisResult) :
    (d.crop_recommendations = none →
      (createPopupContent d cached).crops = CropsView.placeholder noCropsPlaceholder) ∧
    (d.crop_recommendations = some [] →
      (createPopupContent d cached).crops = CropsView.placeholder noCropsPlaceholder) ∧
    (∀ c l, d.crop_recommendations = some (c :: l) →
      (createPopupContent d cached).crops = CropsView.entries ((c :: l).map renderCrop) ∧
      ((c :: l).map renderCrop).length = (c :: l).length) := by
  refine ⟨fun h => ?_, fun h => ?_, fun c l h => ?_⟩
  · simp [createPopupContent, cropsSection, h]
  · simp [createPopupContent, cropsSection, h]
  · exact ⟨by simp [createPopupContent, cropsSection, h], by simp⟩

def sampleResultNoCrops : AnalysisResult :=
  { location := { latitude := 30, longitude := 70, region := "Sindh" }
    weather := { temperature := 30, humidity := 50, rainfall := 2, wind_speed := 10, date := "d" }
    soil := { ph := 7, organic_matter := 2, nitrogen := 0.04, phosphorus := 10,
              potassium := 120, soil_type := "Alluvial" }
    crop_recommendations := none }

theorem C6_empty_crops_placeholder_witness :
    (createPopupContent sampleResultNoCrops true).crops =
      CropsView.placeholder noCropsPlaceholder :=
  (C6_empty_crops_placeholder true sampleResultNoCrops).1 rfl

/-! ## Free-text search (searchLocation, source lines 187-224)

The query string is a list of characters.  The coordinate pattern of line
193, `(-?\d+\.?\d*),\s*(-?\d+\.?\d*)`, is embedded as a greedy matcher; for
this particular pattern greedy submatching coincides with the backtracking
regex semantics, because each quantified piece (`\d+`, `\.?`, `\d*`, `\s*`)
can never profitably give characters back: the character that follows each
piece in the pattern is never accepted by that piece. -/

def isSpaceChar (c : Char) : Bool :=
  c = ' ' || c = '\t' || c = '\n' || c = '\r' || c = '\x0b' || c = '\x0c'

/-- `String.prototype.trim`, applied at line 189. -/
def trimList (l : List Char) : List Char :=
  ((l.dropWhile isSpaceChar).reverse.dropWhile isSpaceChar).reverse

/-- Match `\d+\.?\d*` at the head: the consumed characters and the rest. -/
def matchUNum (l : List Char) : Option (List Char × List Char) :=
  let ds := l.takeWhile Char.isDigit
  let r1 := l.dropWhile Char.isDigit
  if ds.isEmpty then none
  else
    match r1 with
    | '.' :: r2 => some (ds ++ '.' :: r2.takeWhile Char.isDigit, r2.dropWhile Char.isDigit)
    | _ => some (ds, r1)

/-- Match `-?\d+\.?\d*` at the head. -/
def matchNum : List Char → Option (List Char × List Char)
  | [] => none
  | c :: cs =>
    if c = '-' then
      match matchUNum cs with
      | some (n, rest) => some ('-' :: n, rest)
      | none => none
    else matchUNum (c :: cs)

/-- Match the full pattern `(-?\d+\.?\d*),\s*(-?\d+\.?\d*)` at the head,
    returning the two capture groups. -/
def matchPair (l : List Char) : Option (List Char × List Char) :=
  match matchNum l with
  | none => none
  | some (n1, r1) =>
    match r1 with
    | ',' :: r2 =>
      match matchNum (r2.dropWhile isSpaceChar) with
      | some (n2, _) => some (n1, n2)
      | none => none
    | _ => none

/-- `query.match(regex)` with an unanchored pattern: the leftmost position
    where the pattern matches, scanning from the start. -/
def firstCoordMatch : List Char → Option (List Char × List Char)
  | [] => none
  | c :: cs =>
    match matchPair (c :: cs) with
    | some p => some p
    | none => firstCoordMatch cs

/-- `parseFloat` on a capture of `\d+\.?\d*` (exact rational value). -/
def digitsToNat (l : List Char) : Nat :=
  l.foldl (fun a c => 10 * a + (c.toNat - 48)) 0

def parseUNum (l : List Char) : ℚ :=
  let ds := l.takeWhile Char.isDigit
  match l.dropWhile Char.isDigit with
  | '.' :: fs => (digitsToNat ds : ℚ) + (digitsToNat fs : ℚ) / (10 : ℚ) ^ fs.length
  | _ => (digitsToNat ds : ℚ)

def parseNum : List Char → ℚ
  | '-' :: r => - parseUNum r
  | r => parseUNum r

/-- The city registry, source lines 104-113. -/
structure City where
  name : String
  lat : ℚ
  lon : ℚ
  province : String
deriving DecidableEq, Repr

def majorCities : List City :=
  [ ⟨"Karachi", 24.8607, 67.0011, "Sindh"⟩
  , ⟨"Lahore", 31.5804, 74.3587, "Punjab"⟩
  , ⟨"Faisalabad", 31.4504, 73.1350, "Punjab"⟩
  , ⟨"Rawalpindi", 33.5651, 73.0169, "Punjab"⟩
  , ⟨"Multan", 30.1575, 71.5249, "Punjab"⟩
  , ⟨"Hyderabad", 25.3960, 68.3578, "Sindh"⟩
  , ⟨"Peshawar", 34.0151, 71.5249, "KPK"⟩
  , ⟨"Quetta", 30.1798, 66.9750, "Balochistan"⟩ ]

/-- `c.name.toLowerCase().includes(query.toLowerCase())`, source lines
    208-210.  ASCII lowering, as the registry names are ASCII. -/
def strContains : List Char → List Char → Bool
  | [], needle => needle.isEmpty
  | h :: t, needle => needle.isPrefixOf (h :: t) || strContains t needle

def lowerList (l : List Char) : List Char := l.map Char.toLower

def cityMatches (c : City) (query : List Char) : Bool :=
  strContains (lowerList c.name.toList) (lowerList query)

def outOfBoundsMessage : String := "Coordinates outside Pakistan boundaries!"

def cityNotFoundMessage : String := "City not found! Try: Karachi, Lahore, Islamabad, etc."

/-- The observable outcome of one `searchLocation` call: the silent early
    return of line 191, a recenter-plus-marker (lines 200-203 or 213-216),
    or an `alert` (line 205 or line 218). -/
inductive SearchResult where
  | noQuery : SearchResult
  | coordMarker (lat lon : ℚ) : SearchResult
  | cityMarker (c : City) : SearchResult
  | alert (msg : String) : SearchResult
deriving DecidableEq, Repr

/-- The message the user is shown, if any. -/
def userMessage : SearchResult → Option String
  | SearchResult.alert m => some m
  | _ => none

/-- `searchLocation()`, source lines 187-224. -/
def searchLocation (input : List Char) : SearchResult :=
  let query := trimList input
  if query = [] then SearchResult.noQuery
  else
    match firstCoordMatch query with
    | some (n1, n2) =>
      let lat := parseNum n1
      let lon := parseNum n2
      if searchInBounds lat lon then SearchResult.coordMarker lat lon
      else SearchResult.alert outOfBoundsMessage
    | none =>
      match majorCities.find? (fun c => cityMatches c query) with
      | some c => SearchResult.cityMarker c
      | none => SearchResult.alert cityNotFoundMessage

/-! ## Helper lemmas about the search pipeline -/

theorem matchPair_nil : matchPair [] = none := rfl

/-- Reduce `searchLocation` when the coordinate pattern matched. -/
theorem searchLocation_coord_branch (q n1 n2 : List Char)
    (hm : firstCoordMatch (trimList q) = some (n1, n2)) :
    searchLocation q =
      (if searchInBounds (parseNum n1) (parseNum n2)
        then SearchResult.coordMarker (parseNum n1) (parseNum n2)
        else SearchResult.alert outOfBoundsMessage) := by
  have hne : trimList q ≠ [] := by
    intro h
    rw [h] at hm
    cases hm
  simp only [searchLocation, hm]
  rw [if_neg hne]

/-- Reduce `searchLocation` when the coordinate pattern did not match. -/
theorem searchLocation_city_branch (q : List Char)
    (hne : trimList q ≠ []) (hm : firstCoordMatch (trimList q) = none) :
    searchLocation q =
      (match majorCities.find? (fun c => cityMatches c (trimList q)) with
        | some c => SearchResult.cityMarker c
        | none => SearchResult.alert cityNotFoundMessage) := by
  simp only [searchLocation, hm]
  rw [if_neg hne]

/-- `find?` returns the first element satisfying the predicate, in list order. -/
theorem find_first_spec {α : Type} (p : α → Bool) :
    ∀ (l : List α) (c : α), l.find? p = some c →
      p c = true ∧ ∃ l1 l2, l = l1 ++ c :: l2 ∧ ∀ x ∈ l1, p x = false := by
  intro l
  induction l with
  | nil => intro c h; cases h
  | cons a t ih =>
    intro c h
    cases hp : p a with
    | true =>
      have ha : some a = some c := by
        rw [← h]
        simp [List.find?_cons, hp]
      obtain rfl : a = c := Option.some.inj ha
      exact ⟨hp, [], t, rfl, by intro x hx; cases hx⟩
    | false =>
      have h' : t.find? p = some c := by
        rw [← h]
        simp [List.find?_cons, hp]
      obtain ⟨hpc, l1, l2, e, hall⟩ := ih c h'
      refine ⟨hpc, a :: l1, l2, by rw [e, List.cons_append], ?_⟩
      intro x hx
      rcases List.mem_cons.mp hx with rfl | hx
      · exact hp
      · exact hall x hx

/-! ## Theorems for claims C4, C5, C8, C10 -/

/-- C4: a query on which the coordinate pattern matches is resolved as an
    explicit coordinate: in bounds it recenters on the parsed pair, out of
    bounds it alerts, and in neither case is the city registry consulted. -/
theorem C4_coordinate_priority (q n1 n2 : List Char)
    (hm : firstCoordMatch (trimList q) = some (n1, n2)) :
    (searchInBounds (parseNum n1) (parseNum n2) = true →
      searchLocation q = SearchResult.coordMarker (parseNum n1) (parseNum n2)) ∧
    (searchInBounds (parseNum n1) (parseNum n2) = false →
      searchLocation q = SearchResult.alert outOfBoundsMessage) ∧
    (∀ c, searchLocation q ≠ SearchResult.cityMarker c) ∧
    searchLocation q ≠ SearchResult.alert cityNotFoundMessage := by
  have h := searchLocation_coord_branch q n1 n2 hm
  cases hb : searchInBounds (parseNum n1) (parseNum n2) with
  | true =>
    rw [hb, if_pos rfl] at h
    refine ⟨fun _ => h, ?_, ?_, ?_⟩
    · intro hf
      simp at hf
    · intro c
      rw [h]
      simp
    · rw [h]
      simp
  | false =>
    rw [hb, if_neg (by simp)] at h
    refine ⟨?_, fun _ => h, ?_, ?_⟩
    · intro ht
      simp at ht
    · intro c
      rw [h]
      simp
    · rw [h]
      simp only [ne_eq, SearchResult.alert.injEq]
      decide

theorem C4_coordinate_priority_witness :
    firstCoordMatch (trimList ("100, 100".toList)) =
      some ("100".toList, "100".toList) ∧
    searchLocation ("100, 100".toList) = SearchResult.alert outOfBoundsMessage :=
  ⟨by decide,
    (C4_coordinate_priority ("100, 100".toList) ("100".toList) ("100".toList)
      (by decide)).2.1 (by
        have h : parseNum ("100".toList) = ((digitsToNat ("100".toList) : ℕ) : ℚ) := rfl
        rw [h, show digitsToNat ("100".toList) = 100 from by decide]
        norm_num [searchInBounds])⟩

/-- C5: on a non-coordinate-shaped query the lookup is case-insensitive
    substring containment against each city name, returning the first match
    in registry order, the not-found alert exactly when no name matches; and
    `searchLocation "lahore"` yields the city named Lahore. -/
theorem C5_city_substring_first (q : List Char)
    (hne : trimList q ≠ []) (hm : firstCoordMatch (trimList q) = none) :
    (∀ c, searchLocation q = SearchResult.cityMarker c →
      cityMatches c (trimList q) = true ∧
      ∃ l1 l2, majorCities = l1 ++ c :: l2 ∧
        ∀ x ∈ l1, cityMatches x (trimList q) = false) ∧
    (searchLocation q = SearchResult.alert cityNotFoundMessage ↔
      ∀ c ∈ majorCities, cityMatches c (trimList q) = false) ∧
    (∃ c, searchLocation ("lahore".toList) = SearchResult.cityMarker c ∧
      c.name = "Lahore") := by
  have h := searchLocation_city_branch q hne hm
  refine ⟨?_, ?_, ⟨⟨"Lahore", 31.5804, 74.3587, "Punjab"⟩, rfl, rfl⟩⟩
  · intro c hc
    cases hf : majorCities.find? (fun x => cityMatches x (trimList q)) with
    | some c' =>
      rw [hf] at h
      rw [h] at hc
      obtain rfl : c' = c := by
        simpa using hc
      exact find_first_spec _ majorCities _ hf
    | none =>
      rw [hf] at h
      rw [h] at hc
      cases hc
  · cases hf : majorCities.find? (fun x => cityMatches x (trimList q)) with
    | some c' =>
      rw [hf] at h
      constructor
      · intro halert
        rw [h] at halert
        cases halert
      · intro hall
        obtain ⟨hpc, _, _, _, _⟩ := find_first_spec _ majorCities c' hf
        have hmem : c' ∈ majorCities := by
          obtain ⟨_, l1, l2, e, _⟩ := find_first_spec _ majorCities c' hf
          rw [e]
          exact List.mem_append.mpr (Or.inr (List.mem_cons_self _ _))
        rw [hall c' hmem] at hpc
        cases hpc
    | none =>
      rw [hf] at h
      constructor
      · intro _
        intro c hc
        have := List.find?_eq_none.mp hf c hc
        simpa using this
      · intro _
        exact h

theorem C5_city_substring_first_witness :
    ∃ c, searchLocation ("lahore".toList) = SearchResult.cityMarker c ∧
      c.name = "Lahore" :=
  (C5_city_substring_first ("lahore".toList) (by decide) (by decide)).2.2

/-- C10: the not-found alert itself recommends Islamabad, yet no registry
    entry matches "Islamabad": the registry is exactly the eight listed
    cities and searching Islamabad produces the not-found alert. -/
theorem C10_islamabad_not_found :
    searchLocation ("Islamabad".toList) = SearchResult.alert cityNotFoundMessage ∧
    strContains (cityNotFoundMessage.toList) ("Islamabad".toList) = true ∧
    majorCities.map City.name =
      ["Karachi", "Lahore", "Faisalabad", "Rawalpindi", "Multan",
        "Hyderabad", "Peshawar", "Quetta"] ∧
    (∀ c ∈ majorCities, cityMatches c ("Islamabad".toList) = false) :=
  ⟨by decide, by decide, rfl, by decide⟩

/-- C8 (amended): an all-whitespace query makes `searchLocation` return
    immediately, performing no coordinate parse, no city lookup and no map
    action — but silently: no message of any kind is shown (line 191 is a
    bare `return false`, with no alert for the empty case). -/
theorem C8_empty_query_silent (q : List Char) (h : trimList q = []) :
    searchLocation q = SearchResult.noQuery ∧
    userMessage (searchLocation q) = none := by
  have hres : searchLocation q = SearchResult.noQuery := by
    simp only [searchLocation, h]
    rw [if_pos trivial]
  exact ⟨hres, by rw [hres]; rfl⟩

theorem C8_empty_query_silent_witness :
    trimList ("   ".toList) = [] ∧
    (searchLocation ("   ".toList) = SearchResult.noQuery ∧
      userMessage (searchLocation ("   ".toList)) = none) :=
  ⟨by decide, C8_empty_query_silent ("   ".toList) (by decide)⟩

/-- C8 (counterexample to the claim as stated): on the empty query the user
    receives no message at all — in particular not an "empty" rejection
    message — because the code returns silently. -/
theorem C8_empty_query_counterexample :
    searchLocation ("".toList) = SearchResult.noQuery ∧
    userMessage (searchLocation ("".toList)) = none :=
  ⟨rfl, rfl⟩

/-! ## Leftmost-match lemmas for the unanchored coordinate pattern -/

/-- If the pattern matches at some position, the unanchored scan succeeds. -/
theorem firstCoordMatch_append (pre suf : List Char) (p : List Char × List Char)
    (h : matchPair suf = some p) :
    ∃ r, firstCoordMatch (pre ++ suf) = some r := by
  induction pre with
  | nil =>
    cases suf with
    | nil => rw [matchPair_nil] at h; cases h
    | cons c cs =>
      exact ⟨p, by simp only [List.nil_append, firstCoordMatch, h]⟩
  | cons a t ih =>
    obtain ⟨r, hr⟩ := ih
    cases hm : matchPair (a :: (t ++ suf)) with
    | some s =>
      exact ⟨s, by simp only [List.cons_append, firstCoordMatch, List.append_eq, hm]⟩
    | none =>
      refine ⟨r, ?_⟩
      simp only [List.cons_append, firstCoordMatch, List.append_eq, hm]
      exact hr

/-- The scan of `firstCoordMatch` returns the leftmost position at which the
    pattern matches: the pair it yields matches at a split of the input
    before which no strictly shorter prefix admits a match. -/
theorem firstCoordMatch_leftmost (l : List Char) (p : List Char × List Char)
    (h : firstCoordMatch l = some p) :
    ∃ pre suf, l = pre ++ suf ∧ matchPair suf = some p ∧
      ∀ pre' suf', l = pre' ++ suf' → pre'.length < pre.length →
        matchPair suf' = none := by
  induction l with
  | nil => cases h
  | cons c cs ih =>
    cases hm : matchPair (c :: cs) with
    | some r =>
      have hp : r = p := by
        have h' := h
        simp only [firstCoordMatch, hm] at h'
        exact Option.some.inj h'
      subst hp
      refine ⟨[], c :: cs, rfl, hm, ?_⟩
      intro pre' suf' _ hl
      simp at hl
    | none =>
      have h' : firstCoordMatch cs = some p := by
        have h2 := h
        simp only [firstCoordMatch, hm] at h2
        exact h2
      obtain ⟨pre, suf, he, hs, hmin⟩ := ih h'
      refine ⟨c :: pre, suf, by rw [List.cons_append, he], hs, ?_⟩
      intro pre' suf' he' hl
      cases pre' with
      | nil =>
        simp only [List.nil_append] at he'
        rw [← he']
        exact hm
      | cons a t =>
        rw [List.cons_append] at he'
        have h1 := List.cons.injEq c cs a (t ++ suf') ▸ he'
        obtain ⟨rfl, h2⟩ : c = a ∧ cs = t ++ suf' := by
          constructor
          · exact (List.cons.inj he').1
          · exact (List.cons.inj he').2
        exact hmin t suf' h2 (by simpa using hl)

/-- C9: the coordinate pattern is matched as an unanchored substring: if the
    trimmed query splits anywhere into a prefix and a suffix at which the
    pattern matches, resolution takes the coordinate branch (recenter or
    out-of-bounds alert, never a city outcome), using the pair found at the
    leftmost matching position. -/
theorem C9_unanchored_substring (q : List Char)
    (h : ∃ pre suf p, trimList q = pre ++ suf ∧ matchPair suf = some p) :
    ∃ n1 n2,
      firstCoordMatch (trimList q) = some (n1, n2) ∧
      (searchLocation q = SearchResult.coordMarker (parseNum n1) (parseNum n2) ∨
        searchLocation q = SearchResult.alert outOfBoundsMessage) ∧
      (∀ c, searchLocation q ≠ SearchResult.cityMarker c) ∧
      searchLocation q ≠ SearchResult.alert cityNotFoundMessage ∧
      (∃ pre suf, trimList q = pre ++ suf ∧ matchPair suf = some (n1, n2) ∧
        ∀ pre' suf', trimList q = pre' ++ suf' → pre'.length < pre.length →
          matchPair suf' = none) := by
  obtain ⟨pre, suf, p, he, hp⟩ := h
  obtain ⟨⟨n1, n2⟩, hq⟩ : ∃ r, firstCoordMatch (trimList q) = some r := by
    rw [he]
    exact firstCoordMatch_append pre suf p hp
  have hbranch := searchLocation_coord_branch q n1 n2 hq
  have hleft := firstCoordMatch_leftmost (trimList q) (n1, n2) hq
  refine ⟨n1, n2, hq, ?_, ?_, ?_, hleft⟩
  · cases hb : searchInBounds (parseNum n1) (parseNum n2) with
    | true =>
      rw [hb, if_pos rfl] at hbranch
      exact Or.inl hbranch
    | false =>
      rw [hb, if_neg (by simp)] at hbranch
      exact Or.inr hbranch
  · intro c
    cases hb : searchInBounds (parseNum n1) (parseNum n2) with
    | true =>
      rw [hb, if_pos rfl] at hbranch
      rw [hbranch]
      simp
    | false =>
      rw [hb, if_neg (by simp)] at hbranch
      rw [hbranch]
      simp
  · cases hb : searchInBounds (parseNum n1) (parseNum n2) with
    | true =>
      rw [hb, if_pos rfl] at hbranch
      rw [hbranch]
      simp
    | false =>
      rw [hb, if_neg (by simp)] at hbranch
      rw [hbranch]
      simp only [ne_eq, SearchResult.alert.injEq]
      decide

theorem C9_unanchored_substring_witness :
    (∃ pre suf p,
      trimList ("Lahore 31.5,74.3 now".toList) = pre ++ suf ∧
      matchPair suf = some p) ∧
    (∃ n1 n2,
      firstCoordMatch (trimList ("Lahore 31.5,74.3 now".toList)) = some (n1, n2) ∧
      (searchLocation ("Lahore 31.5,74.3 now".toList) =
          SearchResult.coordMarker (parseNum n1) (parseNum n2) ∨
        searchLocation ("Lahore 31.5,74.3 now".toList) =
          SearchResult.alert outOfBoundsMessage) ∧
      (∀ c, searchLocation ("Lahore 31.5,74.3 now".toList) ≠
        SearchResult.cityMarker c) ∧
      searchLocation ("Lahore 31.5,74.3 now".toList) ≠
        SearchResult.alert cityNotFoundMessage ∧
      (∃ pre suf,
        trimList ("Lahore 31.5,74.3 now".toList) = pre ++ suf ∧
        matchPair suf = some (n1, n2) ∧
        ∀ pre' suf',
          trimList ("Lahore 31.5,74.3 now".toList) = pre' ++ suf' →
          pre'.length < pre.length → matchPair suf' = none)) :=
  ⟨⟨"Lahore ".toList, "31.5,74.3 now".toList, ("31.5".toList, "74.3".toList),
      by decide, by decide⟩,
    C9_unanchored_substring ("Lahore 31.5,74.3 now".toList)
      ⟨"Lahore ".toList, "31.5,74.3 now".toList, ("31.5".toList, "74.3".toList),
        by decide, by decide⟩⟩
